import Mathlib

/-!
Verification of the traewelling-exporter core against its specification.

The Rust sources (src/lib.rs, src/main.rs) are shallowly embedded below:
pure functions become Lean functions, the stateful scrape pipeline becomes
explicit state passing over a `Metrics` / cache state, fallible operations
return `Except` or `Option`.  Machine integers are modelled as `Int` with
explicit range checks where the code checks them; Rust `f64` values are
modelled opaquely by their display string (`F64`), since the code only ever
formats and compares them, never computes with them.
-/

namespace TrwlExporter

/-- Model of Rust `f64` as used by the exporter: the code never does float
arithmetic, it only calls `to_string()` (Rust's shortest-roundtrip display,
deterministic and injective on distinct values) and derives `Hash`/`Eq` on
the resulting strings.  We therefore carry the display string directly. -/
structure F64 where
  repr : String
deriving DecidableEq, Repr

/-- Model of `chrono::DateTime<FixedOffset>`: the core never reads the
timestamp, it only requires it to deserialize; we keep the RFC-3339 source
string. -/
abbrev RustDateTime := String

/-! ## Data model of src/lib.rs (module traewelling::client) -/

/-- `TrainStopover` from src/lib.rs lines 151-170. -/
structure TrainStopover where
  id : Int
  name : String
  eva_identifier : Int
  arrival : Option RustDateTime
  arrival_planned : Option RustDateTime
  arrival_real : Option RustDateTime
  arrival_platform_planned : Option String
  arrival_platform_real : Option String
  departure : Option RustDateTime
  departure_planned : Option RustDateTime
  departure_real : Option RustDateTime
  departure_platform_planned : Option String
  platform : Option String
  is_arrival_delayed : Bool
  is_departure_delayed : Bool
  cancelled : Bool
deriving DecidableEq, Repr

/-- `Train` from src/lib.rs lines 128-142. -/
structure Train where
  trip : Int
  hafas_id : String
  category : String
  number : String
  line_name : String
  distance : Int
  points : Int
  duration : Int
  speed : F64
  origin : TrainStopover
  destination : TrainStopover
deriving DecidableEq, Repr

/-- `Event` from src/lib.rs lines 144-149. -/
structure Event where
  id : Int
  name : String
deriving DecidableEq, Repr

/-- `Status` from src/lib.rs lines 116-126. -/
structure Status where
  id : Int
  user : Int
  username : String
  business : Int
  created_at : RustDateTime
  train : Train
  event : Option Event
deriving DecidableEq, Repr

/-- `ActiveStatusesResponse` from src/lib.rs lines 112-115. -/
structure ActiveStatusesResponse where
  data : List Status
deriving DecidableEq, Repr

/-! ## Data model of src/main.rs -/

/-- `CheckinData` from src/main.rs lines 60-74: the projection of one
`Status` used as the grouping key (it derives `Hash`/`Eq` over all twelve
fields, including the event fields). -/
structure CheckinData where
  category : String
  distance : String
  line_name : String
  number : String
  duration : String
  speed : String
  user_id : String
  username : String
  origin : String
  destination : String
  event_id : Option String
  event_name : Option String
deriving DecidableEq, Repr

/-- The ten-value label set of one `journeys` sample, in the dimension
order of `create_metrics` (src/main.rs lines 104-120). -/
structure LabelTuple where
  category : String
  distance : String
  line_name : String
  number : String
  duration : String
  speed : String
  user_id : String
  user_name : String
  origin : String
  destination : String
deriving DecidableEq, Repr

/-- The label map built from a `CheckinData` by
`impl From<&CheckinData> for HashMap<&str, &str>` (src/main.rs lines
76-91).  Note that `event_id` and `event_name` are NOT part of the label
map, although they are part of the `CheckinData` hash. -/
def labelMapOf (data : CheckinData) : LabelTuple :=
  { category := data.category
    distance := data.distance
    line_name := data.line_name
    number := data.number
    duration := data.duration
    speed := data.speed
    user_id := data.user_id
    user_name := data.username
    origin := data.origin
    destination := data.destination }

/-- The projection of one upstream `Status` to a `CheckinData`
(src/main.rs lines 176-189).  Rust `to_string` on `i32` is decimal
display, matching `toString` on `Int`; `f64::to_string` is the stored
display string of `F64`. -/
def projectStatus (checkin : Status) : CheckinData :=
  { category := checkin.train.category
    line_name := checkin.train.line_name
    distance := toString checkin.train.distance
    duration := toString checkin.train.duration
    number := checkin.train.number
    speed := checkin.train.speed.repr
    user_id := toString checkin.user
    username := checkin.username
    origin := checkin.train.origin.name
    destination := checkin.train.destination.name
    event_id := checkin.event.map fun e => toString e.id
    event_name := checkin.event.map fun e => e.name }

/-- `Itertools::group_by` keyed by `DefaultHasher` over the full
`CheckinData` (src/main.rs lines 190-201): it groups maximal runs of
CONSECUTIVE elements with equal key and maps each run to
`(first element, run length)`.  The hash is abstracted as injective
(accidental 64-bit hash collisions are outside the model), so the key is
the `CheckinData` itself. -/
def aggregateRuns : List CheckinData → List (CheckinData × Nat)
  | [] => []
  | a :: rest =>
    match aggregateRuns rest with
    | [] => [(a, 1)]
    | (b, n) :: gs => if a = b then (a, n + 1) :: gs else (a, 1) :: (b, n) :: gs

/-- The aggregation step of `fetch_metrics` (src/main.rs lines 174-202):
project every status, then run-group. -/
def aggregate (snapshot : List Status) : List (CheckinData × Nat) :=
  aggregateRuns (snapshot.map projectStatus)

/-! ## JSON model and the serde-derived decoding of src/lib.rs

The structs in src/lib.rs derive `Deserialize` with
`#[serde(rename_all = "camelCase")]`.  The derive maps each Rust
snake_case field to its camelCase JSON key (single-word names are
unchanged), errors on a missing required field or a type mismatch,
silently skips unknown fields, and treats `Option` fields as `None` when
missing or `null`.  The decoders below reproduce that behaviour over an
explicit JSON tree.  Duplicate keys in one object are outside the model
(serde would reject a duplicated known field). -/

inductive Json where
  | null
  | bool (b : Bool)
  | int (n : Int)
  | float (f : F64)
  | str (s : String)
  | arr (elems : List Json)
  | obj (fields : List (String × Json))

/-- Key lookup in a JSON object (first binding wins). -/
def jsonLookup (key : String) : List (String × Json) → Option Json
  | [] => none
  | (k, v) :: rest => if k = key then some v else jsonLookup key rest

/-- serde deserialization of `i32`: a whole JSON number within i32 range. -/
def decodeI32 : Json → Option Int
  | .int n => if -(2 ^ 31) ≤ n ∧ n < 2 ^ 31 then some n else none
  | _ => none

/-- serde deserialization of `f64`: any JSON number (an integer token is
widened; Rust displays a whole f64 without a fraction part, matching the
integer's decimal form). -/
def decodeF64 : Json → Option F64
  | .float f => some f
  | .int n => some ⟨toString n⟩
  | _ => none

def decodeString : Json → Option String
  | .str s => some s
  | _ => none

def decodeBool : Json → Option Bool
  | .bool b => some b
  | _ => none

/-- chrono's `DateTime<FixedOffset>` deserializer, restricted to the basic
RFC-3339 form `YYYY-MM-DDTHH:MM:SS+HH:MM` (the core never reads the
timestamp; the claims only need that well-formed timestamps decode). -/
def rfc3339Slots : List (Char → Bool) :=
  [Char.isDigit, Char.isDigit, Char.isDigit, Char.isDigit, (· == '-'),
   Char.isDigit, Char.isDigit, (· == '-'), Char.isDigit, Char.isDigit,
   (· == 'T'), Char.isDigit, Char.isDigit, (· == ':'), Char.isDigit,
   Char.isDigit, (· == ':'), Char.isDigit, Char.isDigit,
   (fun c => c == '+' || c == '-'), Char.isDigit, Char.isDigit, (· == ':'),
   Char.isDigit, Char.isDigit]

def isRfc3339Basic (s : String) : Bool :=
  s.toList.length == rfc3339Slots.length
    && (s.toList.zip rfc3339Slots).all fun p => p.2 p.1

def decodeDateTime : Json → Option RustDateTime
  | .str s => if isRfc3339Basic s then some s else none
  | _ => none

/-- A required struct field: missing key or failing inner decode is an
error. -/
def decodeField (fields : List (String × Json)) (key : String)
    (dec : Json → Option α) : Option α :=
  (jsonLookup key fields).bind dec

/-- The value-level part of an `Option` field: `null` is `None`. -/
def decodeOptValue (dec : Json → Option α) : Json → Option (Option α)
  | .null => some none
  | v => (dec v).map some

/-- An `Option` struct field: a missing key is `None`. -/
def decodeOptField (fields : List (String × Json)) (key : String)
    (dec : Json → Option α) : Option (Option α) :=
  match jsonLookup key fields with
  | none => some none
  | some v => decodeOptValue dec v

/-- Decoder of `TrainStopover` (src/lib.rs lines 151-170, camelCase keys). -/
def decodeTrainStopover : Json → Option TrainStopover
  | .obj fields => do
    let i ← decodeField fields "id" decodeI32
    let nm ← decodeField fields "name" decodeString
    let eva ← decodeField fields "evaIdentifier" decodeI32
    let arr ← decodeOptField fields "arrival" decodeDateTime
    let arrP ← decodeOptField fields "arrivalPlanned" decodeDateTime
    let arrR ← decodeOptField fields "arrivalReal" decodeDateTime
    let arrPP ← decodeOptField fields "arrivalPlatformPlanned" decodeString
    let arrPR ← decodeOptField fields "arrivalPlatformReal" decodeString
    let dep ← decodeOptField fields "departure" decodeDateTime
    let depP ← decodeOptField fields "departurePlanned" decodeDateTime
    let depR ← decodeOptField fields "departureReal" decodeDateTime
    let depPP ← decodeOptField fields "departurePlatformPlanned" decodeString
    let plat ← decodeOptField fields "platform" decodeString
    let iad ← decodeField fields "isArrivalDelayed" decodeBool
    let idd ← decodeField fields "isDepartureDelayed" decodeBool
    let canc ← decodeField fields "cancelled" decodeBool
    pure { id := i, name := nm, eva_identifier := eva, arrival := arr,
           arrival_planned := arrP, arrival_real := arrR,
           arrival_platform_planned := arrPP, arrival_platform_real := arrPR,
           departure := dep, departure_planned := depP, departure_real := depR,
           departure_platform_planned := depPP, platform := plat,
           is_arrival_delayed := iad, is_departure_delayed := idd,
           cancelled := canc }
  | _ => none

/-- Decoder of `Train` (src/lib.rs lines 128-142).  The single-word field
`trip` keeps its name under camelCase renaming. -/
def decodeTrain : Json → Option Train
  | .obj fields => do
    let trip ← decodeField fields "trip" decodeI32
    let hid ← decodeField fields "hafasId" decodeString
    let cat ← decodeField fields "category" decodeString
    let num ← decodeField fields "number" decodeString
    let ln ← decodeField fields "lineName" decodeString
    let dist ← decodeField fields "distance" decodeI32
    let pts ← decodeField fields "points" decodeI32
    let dur ← decodeField fields "duration" decodeI32
    let spd ← decodeField fields "speed" decodeF64
    let org ← decodeField fields "origin" decodeTrainStopover
    let dst ← decodeField fields "destination" decodeTrainStopover
    pure { trip := trip, hafas_id := hid, category := cat, number := num,
           line_name := ln, distance := dist, points := pts, duration := dur,
           speed := spd, origin := org, destination := dst }
  | _ => none

/-- Decoder of `Event` (src/lib.rs lines 144-149). -/
def decodeEvent : Json → Option Event
  | .obj fields => do
    let i ← decodeField fields "id" decodeI32
    let nm ← decodeField fields "name" decodeString
    pure { id := i, name := nm }
  | _ => none

/-- Decoder of `Status` (src/lib.rs lines 116-126).  The single-word
fields `id`, `user`, `username`, `business` keep their names under
camelCase renaming; `created_at` becomes `createdAt`. -/
def decodeStatus : Json → Option Status
  | .obj fields => do
    let i ← decodeField fields "id" decodeI32
    let usr ← decodeField fields "user" decodeI32
    let unm ← decodeField fields "username" decodeString
    let biz ← decodeField fields "business" decodeI32
    let cat ← decodeField fields "createdAt" decodeDateTime
    let trn ← decodeField fields "train" decodeTrain
    let ev ← decodeOptField fields "event" decodeEvent
    pure { id := i, user := usr, username := unm, business := biz,
           created_at := cat, train := trn, event := ev }
  | _ => none

/-- serde's `Vec<Status>` visitor: decode the elements in order, failing
on the first element that fails. -/
def decodeStatusArray : List Json → Option (List Status)
  | [] => some []
  | j :: rest => do
    let s ← decodeStatus j
    let r ← decodeStatusArray rest
    pure (s :: r)

def decodeStatusList : Json → Option (List Status)
  | .arr elems => decodeStatusArray elems
  | _ => none

/-- Decoder of `ActiveStatusesResponse` (src/lib.rs lines 112-115, no
rename attribute: the single field keeps the key `data`). -/
def decodeActiveStatusesResponse : Json → Option ActiveStatusesResponse
  | .obj fields => do
    let d ← decodeField fields "data" decodeStatusList
    pure { data := d }
  | _ => none

/-! ## JSON payloads in the shape the decoder accepts

`mk…Json` builds the JSON document for a value, using exactly the keys the
serde derive expects, and appends an arbitrary list of extra fields to
each object to express tolerance of unknown fields.  `valid…` states the
side conditions under which such a document decodes back to the value
(numbers in i32 range, timestamps in the RFC-3339 form). -/

def encodeOptWith (enc : α → Json) : Option α → Json
  | none => .null
  | some a => enc a

def mkStopoverJson (extra : List (String × Json)) (s : TrainStopover) : Json :=
  .obj ([("id", .int s.id), ("name", .str s.name),
         ("evaIdentifier", .int s.eva_identifier),
         ("arrival", encodeOptWith Json.str s.arrival),
         ("arrivalPlanned", encodeOptWith Json.str s.arrival_planned),
         ("arrivalReal", encodeOptWith Json.str s.arrival_real),
         ("arrivalPlatformPlanned", encodeOptWith Json.str s.arrival_platform_planned),
         ("arrivalPlatformReal", encodeOptWith Json.str s.arrival_platform_real),
         ("departure", encodeOptWith Json.str s.departure),
         ("departurePlanned", encodeOptWith Json.str s.departure_planned),
         ("departureReal", encodeOptWith Json.str s.departure_real),
         ("departurePlatformPlanned", encodeOptWith Json.str s.departure_platform_planned),
         ("platform", encodeOptWith Json.str s.platform),
         ("isArrivalDelayed", .bool s.is_arrival_delayed),
         ("isDepartureDelayed", .bool s.is_departure_delayed),
         ("cancelled", .bool s.cancelled)] ++ extra)

def mkTrainJson (extraStop extra : List (String × Json)) (t : Train) : Json :=
  .obj ([("trip", .int t.trip), ("hafasId", .str t.hafas_id),
         ("category", .str t.category), ("number", .str t.number),
         ("lineName", .str t.line_name), ("distance", .int t.distance),
         ("points", .int t.points), ("duration", .int t.duration),
         ("speed", .float t.speed),
         ("origin", mkStopoverJson extraStop t.origin),
         ("destination", mkStopoverJson extraStop t.destination)] ++ extra)

def mkEventJson (e : Event) : Json :=
  .obj [("id", .int e.id), ("name", .str e.name)]

def mkStatusJson (extraStop extraTrain extra : List (String × Json))
    (st : Status) : Json :=
  .obj ([("id", .int st.id), ("user", .int st.user),
         ("username", .str st.username), ("business", .int st.business),
         ("createdAt", .str st.created_at),
         ("train", mkTrainJson extraStop extraTrain st.train),
         ("event", encodeOptWith mkEventJson st.event)] ++ extra)

def mkResponseJson (extraStop extraTrain extraStatus extra : List (String × Json))
    (resp : ActiveStatusesResponse) : Json :=
  .obj (("data", .arr (resp.data.map (mkStatusJson extraStop extraTrain extraStatus))) :: extra)

def i32InRange (n : Int) : Bool := decide (-(2 ^ 31) ≤ n ∧ n < 2 ^ 31)

def validOptDT : Option RustDateTime → Bool
  | none => true
  | some s => isRfc3339Basic s

def validStopover (s : TrainStopover) : Bool :=
  i32InRange s.id && i32InRange s.eva_identifier
    && validOptDT s.arrival && validOptDT s.arrival_planned
    && validOptDT s.arrival_real && validOptDT s.departure
    && validOptDT s.departure_planned && validOptDT s.departure_real

def validTrain (t : Train) : Bool :=
  i32InRange t.trip && i32InRange t.distance && i32InRange t.points
    && i32InRange t.duration && validStopover t.origin
    && validStopover t.destination

def validStatus (st : Status) : Bool :=
  i32InRange st.id && i32InRange st.user && i32InRange st.business
    && isRfc3339Basic st.created_at && validTrain st.train
    && (match st.event with
        | none => true
        | some e => i32InRange e.id)

def validResponse (resp : ActiveStatusesResponse) : Bool :=
  resp.data.all validStatus

/-! ## Upstream client (src/lib.rs) -/

/-- `Error` from src/lib.rs lines 174-180: transport or body failures are
wrapped `reqwest::Error`s (carrying only a message here), a non-2xx
response is `InvalidTrwlResponse` with its status code and body text. -/
inductive UpstreamError where
  | Reqwest (msg : String)
  | InvalidTrwlResponse (status_code : Nat) (message : String)
deriving DecidableEq, Repr

/-- What the network returned for `GET base_url/statuses`: either a
transport failure or a response with its status code, the body parsed as
JSON when it is valid JSON, and the raw body text. -/
structure HttpExchange where
  status : Nat
  bodyJson : Option Json
  bodyText : String

/-- `StatusCategory::get_active_statuses` (src/lib.rs lines 93-109) past
the network call, as a function of the exchange outcome: non-2xx becomes
`InvalidTrwlResponse`, a 2xx body is decoded (invalid JSON or a schema
mismatch is a `reqwest` decode error). -/
def get_active_statuses (transport : Except String HttpExchange) :
    Except UpstreamError ActiveStatusesResponse :=
  match transport with
  | .error e => .error (.Reqwest e)
  | .ok ex =>
    if 200 ≤ ex.status ∧ ex.status ≤ 299 then
      match ex.bodyJson with
      | none => .error (.Reqwest "error decoding response body")
      | some j =>
        match decodeActiveStatusesResponse j with
        | some r => .ok r
        | none => .error (.Reqwest "error decoding response body")
    else .error (.InvalidTrwlResponse ex.status ex.bodyText)

/-! ## Client builder (src/lib.rs lines 15-86) -/

/-- The observable configuration of a `reqwest::Client` as this code sets
it: only the user-agent string. -/
structure HttpClient where
  user_agent : String
deriving DecidableEq, Repr

/-- The crate name and version baked into the default user agent; their
values come from the build manifest and are irrelevant to the claims. -/
def cargoPkgName : String := "traewelling-exporter"

def cargoPkgVersion : String := "0.1.0"

/-- `create_default_client` (src/lib.rs lines 34-43). -/
def create_default_client : HttpClient :=
  { user_agent := cargoPkgName ++ "/" ++ cargoPkgVersion }

def DEFAULT_TRAEWELLING_BASE_URL : String := "https://traewelling.de/api/v1"

structure TraewellingClient where
  base_url : String
  client : HttpClient
  token : Option String
deriving DecidableEq, Repr

/-- `TraewellingClientBuilder` (src/lib.rs lines 45-50). -/
structure TraewellingClientBuilder where
  base_url : Option String := none
  client : Option HttpClient := none
  token : Option String := none
deriving DecidableEq, Repr

def TraewellingClientBuilder.with_base_url (b : TraewellingClientBuilder)
    (url : String) : TraewellingClientBuilder :=
  { b with base_url := some url }

/-- `with_client` (src/lib.rs lines 58-61): stores the supplied client in
the builder. -/
def TraewellingClientBuilder.with_client (b : TraewellingClientBuilder)
    (c : HttpClient) : TraewellingClientBuilder :=
  { b with client := some c }

def TraewellingClientBuilder.with_token (b : TraewellingClientBuilder)
    (token : Option String) : TraewellingClientBuilder :=
  { b with token := token }

/-- `TraewellingClientBuilder::build` (src/lib.rs lines 68-76).  Note the
`client` field of the result is `create_default_client()`, not
`self.client`. -/
def TraewellingClientBuilder.build (b : TraewellingClientBuilder) :
    TraewellingClient :=
  { base_url := b.base_url.getD DEFAULT_TRAEWELLING_BASE_URL
    client := create_default_client
    token := b.token }

/-! ## Metric registry and the scrape pipeline (src/main.rs) -/

/-- `Metrics` (src/main.rs lines 98-102): the `journeys` gauge family as a
finite map from label tuple to sample value, and the
`traewelling_requests` counter. -/
structure Metrics where
  checkins : List (LabelTuple × Int)
  traewelling_requests : Nat
deriving DecidableEq, Repr

/-- `IntGaugeVec::get_metric_with(&map).set(v)`: create-or-replace the
sample of one label tuple. -/
def gaugeSet : List (LabelTuple × Int) → LabelTuple → Int → List (LabelTuple × Int)
  | [], t, v => [(t, v)]
  | (t', v') :: rest, t, v =>
    if t' = t then (t', v) :: rest else (t', v') :: gaugeSet rest t v

/-- `record_metrics` (src/main.rs lines 206-216): reset the family (drop
every sample), then for each `(checkin, amount)` set the sample of the
checkin's ten-value label map to `amount`. -/
def record_metrics (data : List (CheckinData × Nat)) (metrics : Metrics) : Metrics :=
  { metrics with
    checkins := data.foldl (fun g p => gaugeSet g (labelMapOf p.1) (p.2 : Int)) [] }

/-- The body of `fetch_metrics` (src/main.rs lines 158-204), i.e. the
cache's fill: call the upstream client (its outcome is the `upstream`
argument), increment `traewelling_requests` in both branches, and on
success project and run-group the snapshot. -/
def fetch_metrics_inner (metrics : Metrics)
    (upstream : Except UpstreamError ActiveStatusesResponse) :
    Except Unit (List (CheckinData × Nat)) × Metrics :=
  match upstream with
  | .ok resp =>
    (.ok (aggregate resp.data),
     { metrics with traewelling_requests := metrics.traewelling_requests + 1 })
  | .error _ =>
    (.error (),
     { metrics with traewelling_requests := metrics.traewelling_requests + 1 })

/-- The `#[cached(time = 2, …)]` TTL in seconds (src/main.rs line 152). -/
def cache_ttl : Nat := 2

/-- The single cache slot of the `cached` macro: the memoized fill result
and the time it was stored.  With `result = true`, only `Ok` values are
ever stored. -/
structure CacheEntry where
  value : List (CheckinData × Nat)
  stored_at : Nat
deriving DecidableEq, Repr

abbrev CacheState := Option CacheEntry

/-- Outcome of one call of the cached `fetch_metrics`: the returned
result, the metrics and cache afterwards, and whether the fill body (and
hence an upstream request) actually ran. -/
structure FetchOutcome where
  result : Except Unit (List (CheckinData × Nat))
  metrics : Metrics
  cache : CacheState
  filled : Bool

/-- A cache miss: run the fill body; an `Ok` result is stored with the
current time, an `Err` stores nothing (`result = true` caches only `Ok`). -/
def fetch_metrics_fill (metrics : Metrics) (cache : CacheState) (now : Nat)
    (upstream : Except UpstreamError ActiveStatusesResponse) : FetchOutcome :=
  match fetch_metrics_inner metrics upstream with
  | (.ok v, m) => ⟨.ok v, m, some ⟨v, now⟩, true⟩
  | (.error e, m) => ⟨.error e, m, cache, true⟩

/-- The cached `fetch_metrics` (src/main.rs lines 151-161): a stored
entry younger than the TTL is returned as is; otherwise the fill runs.
`now` is the wall clock of the call in seconds. -/
def fetch_metrics (metrics : Metrics) (cache : CacheState) (now : Nat)
    (upstream : Except UpstreamError ActiveStatusesResponse) : FetchOutcome :=
  match cache with
  | some entry =>
    if now < entry.stored_at + cache_ttl then
      ⟨.ok entry.value, metrics, some entry, false⟩
    else fetch_metrics_fill metrics cache now upstream
  | none => fetch_metrics_fill metrics cache now upstream

/-- One rendered `journeys` sample line.  The exact Prometheus text
syntax (0.0.4) is irrelevant to every claim; what matters is that the
rendering is a deterministic function of the registry state. -/
def renderSample (p : LabelTuple × Int) : String :=
  "journeys " ++ p.1.category ++ " " ++ p.1.distance ++ " " ++ p.1.line_name
    ++ " " ++ p.1.number ++ " " ++ p.1.duration ++ " " ++ p.1.speed ++ " "
    ++ p.1.user_id ++ " " ++ p.1.user_name ++ " " ++ p.1.origin ++ " "
    ++ p.1.destination ++ " " ++ toString p.2

/-- The exposition text built in `metrics_handler` (src/main.rs lines
139-148): the encoding of an empty default registry, a blank separator,
then the encoding of the gathered global registry. -/
def renderText (metrics : Metrics) : String :=
  "\n\n" ++ String.intercalate "\n" (metrics.checkins.map renderSample)
    ++ "\ntraewelling_requests " ++ toString metrics.traewelling_requests

/-- Outcome of one scrape: the handler's `Result<String, String>` and the
process state afterwards. -/
structure ScrapeOutcome where
  response : Except String String
  metrics : Metrics
  cache : CacheState

/-- `metrics_handler` (src/main.rs lines 131-149): get the aggregate from
the cached fetch; on failure return `Err("Failed to fetch journeys")`
without touching the gauge; on success apply `record_metrics` and return
the rendered exposition. -/
def metrics_handler (metrics : Metrics) (cache : CacheState) (now : Nat)
    (upstream : Except UpstreamError ActiveStatusesResponse) : ScrapeOutcome :=
  let f := fetch_metrics metrics cache now upstream
  match f.result with
  | .error _ => ⟨.error "Failed to fetch journeys", f.metrics, f.cache⟩
  | .ok data =>
    let m := record_metrics data f.metrics
    ⟨.ok (renderText m), m, f.cache⟩

/-- Modelled from the spec: the HTTP status mapping of the scrape result
lives in the out-of-scope router layer, not under src/.  The spec's
contract for it is `handle_scrape() → (200, text) | (500, message)`:
the handler's success variant is served as HTTP 200 with the exposition
text, the error variant as HTTP 500 with the message. -/
def routeScrape : Except String String → Nat × String
  | .ok text => (200, text)
  | .error msg => (500, msg)

/-- A whole process run over a sequence of scrapes, each given its wall
clock and upstream outcome; returns the final state and how many fill
bodies (upstream request attempts) ran.  The scrape handler is the only
code that ever touches the registry. -/
def runScrapes (metrics : Metrics) (cache : CacheState) :
    List (Nat × Except UpstreamError ActiveStatusesResponse) →
    Metrics × CacheState × Nat
  | [] => (metrics, cache, 0)
  | (now, upstream) :: rest =>
    ((runScrapes (metrics_handler metrics cache now upstream).metrics
        (metrics_handler metrics cache now upstream).cache rest).1,
     (runScrapes (metrics_handler metrics cache now upstream).metrics
        (metrics_handler metrics cache now upstream).cache rest).2.1,
     (if (fetch_metrics metrics cache now upstream).filled then 1 else 0)
       + (runScrapes (metrics_handler metrics cache now upstream).metrics
            (metrics_handler metrics cache now upstream).cache rest).2.2)

/-! ## Concrete example values, used below as test inputs -/

def exOrigin : TrainStopover :=
  { id := 1, name := "Hamburg Hbf", eva_identifier := 8002549,
    arrival := none, arrival_planned := none, arrival_real := none,
    arrival_platform_planned := none, arrival_platform_real := none,
    departure := none, departure_planned := none, departure_real := none,
    departure_platform_planned := none, platform := none,
    is_arrival_delayed := false, is_departure_delayed := false,
    cancelled := false }

def exDestination : TrainStopover :=
  { exOrigin with id := 2, name := "Kiel Hbf", eva_identifier := 8000199 }

def exTrain : Train :=
  { trip := 100, hafas_id := "h1", category := "regional", number := "4512",
    line_name := "RE5", distance := 120000, points := 10, duration := 95,
    speed := ⟨"84.3"⟩, origin := exOrigin, destination := exDestination }

/-- A status over `exTrain` with the given event and line name. -/
def exStatusWith (ev : Option Event) (ln : String) : Status :=
  { id := 1, user := 7, username := "alice", business := 0,
    created_at := "2024-05-01T10:00:00+02:00",
    train := { exTrain with line_name := ln }, event := ev }

def statusX : Status := exStatusWith (some ⟨1, "Festival"⟩) "RE5"

def statusY : Status := exStatusWith (some ⟨2, "Festival"⟩) "RE5"

def statusA : Status := exStatusWith none "RE5"

def statusB : Status := exStatusWith none "RE7"

/-- The body of the upstream response in the payload shape the claim
documents: camelCase identifier fields `userId`, `businessId`, `tripId`
on an otherwise well-formed status. -/
def documentedShapeBody : Json :=
  .obj [("data", .arr [.obj
    [("id", .int 1), ("userId", .int 7), ("username", .str "alice"),
     ("businessId", .int 0),
     ("createdAt", .str "2024-05-01T10:00:00+02:00"),
     ("train", .obj
       [("tripId", .int 100), ("hafasId", .str "h1"),
        ("category", .str "regional"), ("number", .str "4512"),
        ("lineName", .str "RE5"), ("distance", .int 120000),
        ("points", .int 10), ("duration", .int 95),
        ("speed", .float ⟨"84.3"⟩),
        ("origin", mkStopoverJson [] exOrigin),
        ("destination", mkStopoverJson [] exDestination)]),
     ("event", .null)]])]

/-! ## Lemmas about the run-grouping aggregation -/

theorem aggregateRuns_sum (l : List CheckinData) :
    ((aggregateRuns l).map Prod.snd).sum = l.length := by
  induction l with
  | nil => rfl
  | cons a rest ih =>
    cases h : aggregateRuns rest with
    | nil =>
      rw [h] at ih
      simp only [List.map_nil, List.sum_nil] at ih
      simp [aggregateRuns, h, ← ih]
    | cons p gs =>
      obtain ⟨b, n⟩ := p
      rw [h] at ih
      simp only [List.map_cons, List.sum_cons] at ih
      by_cases hab : a = b <;>
        simp [aggregateRuns, h, hab, List.length_cons, ← ih] <;> omega

theorem aggregateRuns_length (l : List CheckinData) :
    (aggregateRuns l).length ≤ l.length := by
  induction l with
  | nil => simp [aggregateRuns]
  | cons a rest ih =>
    cases h : aggregateRuns rest with
    | nil => simp [aggregateRuns, h]
    | cons p gs =>
      obtain ⟨b, n⟩ := p
      rw [h] at ih
      simp only [List.length_cons] at ih
      by_cases hab : a = b <;> simp [aggregateRuns, h, hab] <;> omega

theorem aggregateRuns_pos (l : List CheckinData) :
    ∀ p ∈ aggregateRuns l, 0 < p.2 := by
  induction l with
  | nil => simp [aggregateRuns]
  | cons a rest ih =>
    cases h : aggregateRuns rest with
    | nil => simp [aggregateRuns, h]
    | cons q gs =>
      obtain ⟨b, n⟩ := q
      rw [h] at ih
      intro p hp
      by_cases hab : a = b <;> simp [aggregateRuns, h, hab] at hp
      · rcases hp with hp | hp
        · simp [hp]
        · exact ih p (by simp [hp])
      · rcases hp with hp | hp | hp
        · simp [hp]
        · exact ih p (by simp [hp])
        · exact ih p (by simp [hp])

/-- C9: for every snapshot, the aggregate is a partition of the snapshot:
at most one class per status, class sizes sum to the snapshot size, every
class is non-empty, and the empty snapshot yields the empty aggregate. -/
theorem aggregate_partition_law : ∀ S : List Status,
    (aggregate S).length ≤ S.length
    ∧ ((aggregate S).map Prod.snd).sum = S.length
    ∧ (∀ p ∈ aggregate S, 0 < p.2)
    ∧ aggregate ([] : List Status) = [] := by
  intro S
  refine ⟨?_, ?_, ?_, rfl⟩
  · simpa using (aggregateRuns_length (S.map projectStatus))
  · simpa using (aggregateRuns_sum (S.map projectStatus))
  · exact aggregateRuns_pos (S.map projectStatus)

/-- Witness for `aggregate_partition_law` at a concrete three-status
snapshot, including one concrete member of the aggregate. -/
theorem aggregate_partition_law_witness :
    (aggregate [statusA, statusB, statusA]).length
        ≤ ([statusA, statusB, statusA] : List Status).length
    ∧ ((aggregate [statusA, statusB, statusA]).map Prod.snd).sum
        = ([statusA, statusB, statusA] : List Status).length
    ∧ 0 < ((projectStatus statusA, 1) : CheckinData × Nat).2 :=
  ⟨(aggregate_partition_law [statusA, statusB, statusA]).1,
   (aggregate_partition_law [statusA, statusB, statusA]).2.1,
   (aggregate_partition_law [statusA, statusB, statusA]).2.2.1
     (projectStatus statusA, 1) (by decide)⟩

/-! ## Lemmas about the gauge family -/

theorem gaugeSet_fresh (g : List (LabelTuple × Int)) (t : LabelTuple) (v : Int)
    (h : t ∉ g.map Prod.fst) : gaugeSet g t v = g ++ [(t, v)] := by
  induction g with
  | nil => rfl
  | cons q rest ih =>
    obtain ⟨t', v'⟩ := q
    simp only [List.map_cons, List.mem_cons] at h
    push_neg at h
    simp [gaugeSet, Ne.symm h.1, ih h.2]

theorem foldl_gaugeSet_fresh (data : List (CheckinData × Nat)) :
    ∀ g : List (LabelTuple × Int),
    (data.map fun p => labelMapOf p.1).Nodup →
    (∀ p ∈ data, labelMapOf p.1 ∉ g.map Prod.fst) →
    data.foldl (fun g p => gaugeSet g (labelMapOf p.1) (p.2 : Int)) g
      = g ++ data.map fun p => (labelMapOf p.1, (p.2 : Int)) := by
  induction data with
  | nil => intro g _ _; simp
  | cons p rest ih =>
    intro g hd hg
    simp only [List.map_cons, List.nodup_cons] at hd
    have hfresh : labelMapOf p.1 ∉ g.map Prod.fst := hg p (by simp)
    rw [List.foldl_cons, gaugeSet_fresh g _ _ hfresh,
      ih (g ++ [(labelMapOf p.1, (p.2 : Int))]) hd.2 ?_]
    · simp
    · intro q hq
      simp only [List.map_append, List.mem_append, List.map_cons, List.map_nil,
        List.mem_singleton]
      push_neg
      refine ⟨hg q (by simp [hq]), ?_⟩
      intro hcontra
      exact hd.1 (by simpa [hcontra] using List.mem_map_of_mem (fun p => labelMapOf p.1) hq)

/-- C6 (amended): provided the entries of the aggregate have pairwise
distinct label tuples — which holds of an `Aggregate` in the spec's
mapping sense — `record_metrics` drops every existing sample and the
resulting sample list is exactly one sample per aggregate entry, whatever
the prior gauge state was. -/
theorem record_metrics_exact_samples :
    ∀ (metrics : Metrics) (data : List (CheckinData × Nat)),
    (data.map fun p => labelMapOf p.1).Nodup →
    (record_metrics data metrics).checkins
      = data.map fun p => (labelMapOf p.1, (p.2 : Int)) := by
  intro metrics data hd
  rw [record_metrics]
  exact foldl_gaugeSet_fresh data [] hd (by simp)

/-- Witness for `record_metrics_exact_samples` at a concrete two-entry
aggregate over a non-empty prior gauge. -/
theorem record_metrics_exact_samples_witness :
    ((([(projectStatus statusA, 2), (projectStatus statusB, 1)] :
        List (CheckinData × Nat)).map fun p => labelMapOf p.1).Nodup
      ∧ (record_metrics [(projectStatus statusA, 2), (projectStatus statusB, 1)]
          ⟨[(labelMapOf (projectStatus statusX), 9)], 5⟩).checkins
        = [(labelMapOf (projectStatus statusA), 2),
           (labelMapOf (projectStatus statusB), 1)]) :=
  ⟨by decide,
   record_metrics_exact_samples ⟨[(labelMapOf (projectStatus statusX), 9)], 5⟩
     [(projectStatus statusA, 2), (projectStatus statusB, 1)] (by decide)⟩

/-- C6 counterexample: an aggregate whose two entries share the same
ten-value label tuple (they differ only in the event fields, which the
labels drop) does NOT produce one sample per entry: the second write
overwrites the first and only one sample with the last count survives. -/
theorem record_metrics_duplicate_tuple_collision :
    (record_metrics [(projectStatus statusX, 1), (projectStatus statusY, 2)]
        ⟨[], 0⟩).checkins
      = [(labelMapOf (projectStatus statusX), 2)]
    ∧ (record_metrics [(projectStatus statusX, 1), (projectStatus statusY, 2)]
        ⟨[], 0⟩).checkins
      ≠ [(labelMapOf (projectStatus statusX), 1),
         (labelMapOf (projectStatus statusY), 2)] := by
  constructor <;> decide

/-- C2: two statuses that agree on all ten output label values but carry
different events form two aggregate classes (the grouping key hashes the
full `CheckinData`, event fields included), and `record_metrics` then
writes the shared sample twice — the second write overwrites the first,
leaving count 1 instead of the additive 2 the invariant demands. -/
theorem equal_label_tuples_overwritten :
    labelMapOf (projectStatus statusX) = labelMapOf (projectStatus statusY)
    ∧ projectStatus statusX ≠ projectStatus statusY
    ∧ aggregate [statusX, statusY]
        = [(projectStatus statusX, 1), (projectStatus statusY, 1)]
    ∧ (record_metrics (aggregate [statusX, statusY]) ⟨[], 0⟩).checkins
        = [(labelMapOf (projectStatus statusX), 1)] := by
  refine ⟨by decide, by decide, by decide, by decide⟩

/-- C3: `group_by` groups only consecutive equal keys, so the equal-tuple
statuses at positions 0 and 2 of the snapshot `[A, B, A]` end up in two
distinct aggregate classes instead of sharing one. -/
theorem nonadjacent_equal_tuples_split_classes :
    projectStatus statusA ≠ projectStatus statusB
    ∧ aggregate [statusA, statusB, statusA]
        = [(projectStatus statusA, 1), (projectStatus statusB, 1),
           (projectStatus statusA, 1)]
    ∧ (aggregate [statusA, statusB, statusA]).length = 3 := by
  refine ⟨by decide, by decide, by decide⟩

/-! ## Lemmas about the request counter, the cache and the handler -/

theorem fetch_metrics_inner_counter (metrics : Metrics)
    (upstream : Except UpstreamError ActiveStatusesResponse) :
    (fetch_metrics_inner metrics upstream).2.traewelling_requests
      = metrics.traewelling_requests + 1 := by
  cases upstream <;> rfl

theorem fetch_metrics_inner_checkins (metrics : Metrics)
    (upstream : Except UpstreamError ActiveStatusesResponse) :
    (fetch_metrics_inner metrics upstream).2.checkins = metrics.checkins := by
  cases upstream <;> rfl

theorem fetch_metrics_counter (metrics : Metrics) (cache : CacheState)
    (now : Nat) (upstream : Except UpstreamError ActiveStatusesResponse) :
    (fetch_metrics metrics cache now upstream).metrics.traewelling_requests
      = metrics.traewelling_requests
        + (if (fetch_metrics metrics cache now upstream).filled then 1 else 0) := by
  cases cache with
  | none => cases upstream <;> simp [fetch_metrics, fetch_metrics_fill, fetch_metrics_inner]
  | some entry =>
    by_cases h : now < entry.stored_at + cache_ttl
    · simp [fetch_metrics, h]
    · cases upstream <;>
        simp [fetch_metrics, fetch_metrics_fill, fetch_metrics_inner, h]

theorem fetch_metrics_checkins (metrics : Metrics) (cache : CacheState)
    (now : Nat) (upstream : Except UpstreamError ActiveStatusesResponse) :
    (fetch_metrics metrics cache now upstream).metrics.checkins
      = metrics.checkins := by
  cases cache with
  | none => cases upstream <;> simp [fetch_metrics, fetch_metrics_fill, fetch_metrics_inner]
  | some entry =>
    by_cases h : now < entry.stored_at + cache_ttl
    · simp [fetch_metrics, h]
    · cases upstream <;>
        simp [fetch_metrics, fetch_metrics_fill, fetch_metrics_inner, h]

theorem record_metrics_counter (data : List (CheckinData × Nat)) (metrics : Metrics) :
    (record_metrics data metrics).traewelling_requests
      = metrics.traewelling_requests := rfl

theorem metrics_handler_counter (metrics : Metrics) (cache : CacheState)
    (now : Nat) (upstream : Except UpstreamError ActiveStatusesResponse) :
    (metrics_handler metrics cache now upstream).metrics.traewelling_requests
      = metrics.traewelling_requests
        + (if (fetch_metrics metrics cache now upstream).filled then 1 else 0) := by
  rw [metrics_handler]
  cases h : (fetch_metrics metrics cache now upstream).result <;>
    simp [h, record_metrics_counter, fetch_metrics_counter]

/-- C5: the fill body bumps `traewelling_requests` by exactly one whether
the upstream call succeeded or failed; across the cached wrapper the
counter advances by exactly one per fill and not at all on a cache hit;
and over any whole run of scrapes — the only code that touches the
registry — the final counter is the initial counter plus the number of
fill bodies that ran, hence non-decreasing. -/
theorem requests_counter_invariant :
    (∀ (metrics : Metrics) (upstream : Except UpstreamError ActiveStatusesResponse),
      (fetch_metrics_inner metrics upstream).2.traewelling_requests
        = metrics.traewelling_requests + 1)
    ∧ (∀ (metrics : Metrics) (cache : CacheState) (now : Nat)
        (upstream : Except UpstreamError ActiveStatusesResponse),
        (fetch_metrics metrics cache now upstream).metrics.traewelling_requests
          = metrics.traewelling_requests
            + (if (fetch_metrics metrics cache now upstream).filled then 1 else 0))
    ∧ (∀ (metrics : Metrics) (cache : CacheState)
        (scrapes : List (Nat × Except UpstreamError ActiveStatusesResponse)),
        (runScrapes metrics cache scrapes).1.traewelling_requests
          = metrics.traewelling_requests + (runScrapes metrics cache scrapes).2.2
        ∧ metrics.traewelling_requests
            ≤ (runScrapes metrics cache scrapes).1.traewelling_requests) := by
  refine ⟨fetch_metrics_inner_counter, fetch_metrics_counter, ?_⟩
  intro metrics cache scrapes
  induction scrapes generalizing metrics cache with
  | nil => simp [runScrapes]
  | cons step rest ih =>
    obtain ⟨now, upstream⟩ := step
    have hstep := metrics_handler_counter metrics cache now upstream
    have hrec := ih (metrics_handler metrics cache now upstream).metrics
      (metrics_handler metrics cache now upstream).cache
    have h1 := hrec.1
    have h2 := hrec.2
    rw [runScrapes]
    refine ⟨?_, ?_⟩ <;> dsimp only <;> omega

/-- C7: when the fill errors, nothing is stored in the cache (`result =
true` caches only `Ok`): from an empty cache slot the slot stays empty
and the next caller runs the fill again rather than receiving a cached
error; from an expired slot the expired entry is left as is (it is never
served again) and the call still surfaces the error. -/
theorem error_fill_not_cached :
    ∀ (metrics : Metrics) (now nextNow : Nat) (e : UpstreamError)
      (nextUpstream : Except UpstreamError ActiveStatusesResponse),
    (fetch_metrics metrics none now (.error e)).cache = none
    ∧ (fetch_metrics metrics none now (.error e)).result = .error ()
    ∧ (fetch_metrics (fetch_metrics metrics none now (.error e)).metrics
        none nextNow nextUpstream).filled = true
    ∧ ∀ entry : CacheEntry, entry.stored_at + cache_ttl ≤ now →
        (fetch_metrics metrics (some entry) now (.error e)).cache = some entry
        ∧ (fetch_metrics metrics (some entry) now (.error e)).result = .error () := by
  intro metrics now nextNow e nextUpstream
  refine ⟨rfl, rfl, ?_, ?_⟩
  · cases nextUpstream <;> rfl
  · intro entry hexp
    have h : ¬ now < entry.stored_at + cache_ttl := by omega
    simp [fetch_metrics, h, fetch_metrics_fill, fetch_metrics_inner]

/-- Witness for `error_fill_not_cached` at concrete inputs, including an
expired entry (stored at 0, queried at 2 with a TTL of 2). -/
theorem error_fill_not_cached_witness :
    (fetch_metrics ⟨[], 0⟩ none 2 (.error (.Reqwest "connection refused"))).cache = none
    ∧ (fetch_metrics ⟨[], 0⟩ none 2 (.error (.Reqwest "connection refused"))).result
        = .error ()
    ∧ (fetch_metrics (fetch_metrics ⟨[], 0⟩ none 2
          (.error (.Reqwest "connection refused"))).metrics
        none 3 (.error (.InvalidTrwlResponse 401 "Unauthenticated"))).filled = true
    ∧ ((⟨[], 0⟩ : CacheEntry).stored_at + cache_ttl ≤ 2
        ∧ (fetch_metrics ⟨[], 0⟩ (some ⟨[], 0⟩) 2
            (.error (.Reqwest "connection refused"))).cache = some ⟨[], 0⟩
        ∧ (fetch_metrics ⟨[], 0⟩ (some ⟨[], 0⟩) 2
            (.error (.Reqwest "connection refused"))).result = .error ()) := by
  obtain ⟨h1, h2, h3, h4⟩ := error_fill_not_cached ⟨[], 0⟩ 2 3
    (.Reqwest "connection refused") (.error (.InvalidTrwlResponse 401 "Unauthenticated"))
  exact ⟨h1, h2, h3, by decide, h4 ⟨[], 0⟩ (by decide)⟩

/-- C8: whenever the fill body actually runs (a cache miss) and the
upstream fetch fails, the scrape mutates no gauge: the `journeys` family
after the failed scrape is exactly the family before it, and the handler
returns its error variant. -/
theorem failed_fetch_leaves_gauge :
    ∀ (metrics : Metrics) (cache : CacheState) (now : Nat) (e : UpstreamError),
    (fetch_metrics metrics cache now (.error e)).filled = true →
    (metrics_handler metrics cache now (.error e)).metrics.checkins
      = metrics.checkins
    ∧ (metrics_handler metrics cache now (.error e)).response
      = .error "Failed to fetch journeys" := by
  intro metrics cache now e hfill
  have hres : (fetch_metrics metrics cache now (.error e)).result = .error () := by
    cases cache with
    | none => rfl
    | some entry =>
      by_cases h : now < entry.stored_at + cache_ttl
      · rw [fetch_metrics] at hfill
        simp [h] at hfill
      · simp [fetch_metrics, h, fetch_metrics_fill, fetch_metrics_inner]
  rw [metrics_handler]
  simp [hres, fetch_metrics_checkins metrics cache now (Except.error e)]

/-- Witness for `failed_fetch_leaves_gauge`: a cold-cache scrape against
an upstream 401 leaves the previously recorded sample untouched. -/
theorem failed_fetch_leaves_gauge_witness :
    (fetch_metrics ⟨[(labelMapOf (projectStatus statusA), 3)], 4⟩ none 0
        (.error (.InvalidTrwlResponse 401 "Unauthenticated"))).filled = true
    ∧ (metrics_handler ⟨[(labelMapOf (projectStatus statusA), 3)], 4⟩ none 0
        (.error (.InvalidTrwlResponse 401 "Unauthenticated"))).metrics.checkins
      = (⟨[(labelMapOf (projectStatus statusA), 3)], 4⟩ : Metrics).checkins
    ∧ (metrics_handler ⟨[(labelMapOf (projectStatus statusA), 3)], 4⟩ none 0
        (.error (.InvalidTrwlResponse 401 "Unauthenticated"))).response
      = .error "Failed to fetch journeys" := by
  have h := failed_fetch_leaves_gauge ⟨[(labelMapOf (projectStatus statusA), 3)], 4⟩
    none 0 (.InvalidTrwlResponse 401 "Unauthenticated") (by decide)
  exact ⟨by decide, h.1, h.2⟩

/-- C1: the handler's response is the success variant carrying the
rendered exposition exactly when the cached fetch produced an aggregate,
and the error variant with the short message otherwise; through the
spec's router contract (`routeScrape`) that is HTTP 200 with the text on
success and HTTP 500 with the message on failure — a failed scrape is
never served with status 200. -/
theorem scrape_status_contract :
    ∀ (metrics : Metrics) (cache : CacheState) (now : Nat)
      (upstream : Except UpstreamError ActiveStatusesResponse),
    (metrics_handler metrics cache now upstream).response
      = (match (fetch_metrics metrics cache now upstream).result with
         | .ok data =>
           .ok (renderText
             (record_metrics data (fetch_metrics metrics cache now upstream).metrics))
         | .error _ => .error "Failed to fetch journeys")
    ∧ ((routeScrape (metrics_handler metrics cache now upstream).response).1 = 200
        ↔ (fetch_metrics metrics cache now upstream).result.isOk = true) := by
  intro metrics cache now upstream
  rw [metrics_handler]
  cases h : (fetch_metrics metrics cache now upstream).result <;>
    simp [h, routeScrape, Except.isOk, Except.toBool]

/-- C10: `build` constructs the HTTP client with `create_default_client()`
regardless of the builder's stored client, so `with_client` has no effect
on the built `TraewellingClient`. -/
theorem with_client_discarded :
    ∀ (b : TraewellingClientBuilder) (c : HttpClient),
    (b.with_client c).build = b.build
    ∧ (b.with_client c).build.client = create_default_client := by
  intro b c
  cases b
  exact ⟨rfl, rfl⟩

/-! ## Decoder lemmas -/

theorem decodeOptValue_str (o : Option String) :
    decodeOptValue decodeString (encodeOptWith Json.str o) = some o := by
  cases o <;> rfl

theorem decodeOptValue_dt (o : Option RustDateTime) (h : validOptDT o = true) :
    decodeOptValue decodeDateTime (encodeOptWith Json.str o) = some o := by
  cases o with
  | none => rfl
  | some s =>
    show (decodeDateTime (Json.str s)).map some = some (some s)
    simp only [validOptDT] at h
    simp [decodeDateTime, h]

theorem decodeEvent_mk (e : Event) (h : i32InRange e.id = true) :
    decodeEvent (mkEventJson e) = some e := by
  rw [i32InRange, decide_eq_true_eq] at h
  norm_num at h
  simp [decodeEvent, mkEventJson, decodeField, jsonLookup, decodeI32,
    decodeString, h.1, h.2]

theorem decodeOptValue_event (o : Option Event)
    (h : (match o with | none => true | some e => i32InRange e.id) = true) :
    decodeOptValue decodeEvent (encodeOptWith mkEventJson o) = some o := by
  cases o with
  | none => rfl
  | some e =>
    show (decodeEvent (mkEventJson e)).map some = some (some e)
    simp [decodeEvent_mk e h]

theorem decodeTrainStopover_mk (s : TrainStopover)
    (extra : List (String × Json)) (h : validStopover s = true) :
    decodeTrainStopover (mkStopoverJson extra s) = some s := by
  simp only [validStopover, Bool.and_eq_true] at h
  obtain ⟨⟨⟨⟨⟨⟨⟨h1, h2⟩, h3⟩, h4⟩, h5⟩, h6⟩, h7⟩, h8⟩ := h
  rw [i32InRange, decide_eq_true_eq] at h1 h2
  norm_num at h1 h2
  simp [decodeTrainStopover, mkStopoverJson, decodeField, decodeOptField,
    jsonLookup, decodeI32, decodeString, decodeBool, h1.1, h1.2, h2.1, h2.2,
    decodeOptValue_str, decodeOptValue_dt _ h3, decodeOptValue_dt _ h4,
    decodeOptValue_dt _ h5, decodeOptValue_dt _ h6, decodeOptValue_dt _ h7,
    decodeOptValue_dt _ h8]

theorem decodeTrain_mk (t : Train) (extraStop extra : List (String × Json))
    (h : validTrain t = true) :
    decodeTrain (mkTrainJson extraStop extra t) = some t := by
  simp only [validTrain, Bool.and_eq_true] at h
  obtain ⟨⟨⟨⟨⟨h1, h2⟩, h3⟩, h4⟩, h5⟩, h6⟩ := h
  rw [i32InRange, decide_eq_true_eq] at h1 h2 h3 h4
  norm_num at h1 h2 h3 h4
  simp [decodeTrain, mkTrainJson, decodeField, jsonLookup, decodeI32,
    decodeString, decodeF64, h1.1, h1.2, h2.1, h2.2, h3.1, h3.2, h4.1, h4.2,
    decodeTrainStopover_mk t.origin extraStop h5,
    decodeTrainStopover_mk t.destination extraStop h6]

theorem decodeStatus_mk (st : Status)
    (extraStop extraTrain extra : List (String × Json))
    (h : validStatus st = true) :
    decodeStatus (mkStatusJson extraStop extraTrain extra st) = some st := by
  simp only [validStatus, Bool.and_eq_true] at h
  obtain ⟨⟨⟨⟨⟨h1, h2⟩, h3⟩, h4⟩, h5⟩, h6⟩ := h
  rw [i32InRange, decide_eq_true_eq] at h1 h2 h3
  norm_num at h1 h2 h3
  simp [decodeStatus, mkStatusJson, decodeField, decodeOptField, jsonLookup,
    decodeI32, decodeString, decodeDateTime, h4, h1.1, h1.2, h2.1, h2.2,
    h3.1, h3.2, decodeTrain_mk st.train extraStop extraTrain h5,
    decodeOptValue_event st.event h6]

theorem decodeStatusList_mk (l : List Status)
    (extraStop extraTrain extraStatus : List (String × Json))
    (h : l.all validStatus = true) :
    decodeStatusList (.arr (l.map (mkStatusJson extraStop extraTrain extraStatus)))
      = some l := by
  induction l with
  | nil => rfl
  | cons st rest ih =>
    simp only [List.all_cons, Bool.and_eq_true] at h
    have hrest := ih h.2
    simp only [decodeStatusList] at hrest ⊢
    simp [decodeStatusArray, decodeStatus_mk st extraStop extraTrain extraStatus h.1,
      hrest]

/-- C4 (amended): on an HTTP 2xx upstream response, a JSON body of the
shape the serde derive actually expects — `data: [...]`, statuses with
the single-word field names `user`, `business` and `train.trip`
unchanged by the camelCase renaming, multi-word attributes camelCased
(`createdAt`, `lineName`, `hafasId`, `evaIdentifier`, …), stopover
objects for `origin`/`destination` — decodes back to the snapshot, with
arbitrary unknown fields tolerated at the top level and inside every
status, train and stopover object; such a body never yields a decode
error. -/
theorem documented_shape_decodes :
    ∀ (resp : ActiveStatusesResponse) (status : Nat) (txt : String)
      (extraStop extraTrain extraStatus extraTop : List (String × Json)),
    validResponse resp = true → 200 ≤ status → status ≤ 299 →
    get_active_statuses (.ok ⟨status,
        some (mkResponseJson extraStop extraTrain extraStatus extraTop resp), txt⟩)
      = .ok resp := by
  intro resp status txt extraStop extraTrain extraStatus extraTop hv h200 h299
  rw [validResponse] at hv
  rw [get_active_statuses]
  rw [if_pos ⟨h200, h299⟩]
  simp [mkResponseJson, decodeActiveStatusesResponse, decodeField, jsonLookup,
    decodeStatusList_mk resp.data extraStop extraTrain extraStatus hv]

/-- Witness for `documented_shape_decodes`: a concrete two-status payload
(one status with an event, one without) carrying unknown fields at every
level decodes to exactly that snapshot. -/
theorem documented_shape_decodes_witness :
    (validResponse ⟨[statusA, statusX]⟩ = true
      ∧ 200 ≤ 200 ∧ 200 ≤ 299
      ∧ get_active_statuses (.ok ⟨200,
          some (mkResponseJson [("zugart", .null)] [("operator", .str "db")]
            [("likes", .int 3)] [("meta", .null)] ⟨[statusA, statusX]⟩), ""⟩)
        = .ok ⟨[statusA, statusX]⟩) :=
  ⟨by decide, by decide, by decide,
   documented_shape_decodes ⟨[statusA, statusX]⟩ 200 ""
     [("zugart", .null)] [("operator", .str "db")] [("likes", .int 3)]
     [("meta", .null)] (by decide) (by decide) (by decide)⟩

/-- C4 counterexample: the payload shape the claim documents — statuses
with `userId`, `businessId` and `train.tripId` — does NOT decode: the
serde derive's camelCase renaming leaves the single-word Rust fields
`user`, `business`, `trip` unchanged, so those keys are missing and a
2xx response with this body is a decode error. -/
theorem camelcase_id_fields_rejected :
    decodeActiveStatusesResponse documentedShapeBody = none
    ∧ get_active_statuses (.ok ⟨200, some documentedShapeBody, ""⟩)
        = .error (.Reqwest "error decoding response body") := by
  constructor <;> rfl

end TrwlExporter
